import Mathlib

/-!
# Verification of the GopenGL render-object buffer model

Shallow embedding of `src/graphics/graphics.go`.

Modelling conventions:
* Go `float32` arithmetic is modelled as exact rational arithmetic (`ℚ`).
* Go `int` is modelled as `Int`.
* The package-level mutable viewport globals (`windowWidth`, `windowHeight`)
  are passed explicitly as the first two arguments of every function that
  reads them; `SetWindowSize` returns the pair it stores.
* A Go `panic` is modelled with `Except`: `Except.error s` means the call
  panicked, with `s` the state of the render object at the moment of panic.
* The `gopengl/graphics/opengl` package (VAO buffers, texture conversion) is
  not part of the repository snapshot; its operations are modelled from the
  spec and carry a `Modelled from the spec:` doc comment.
-/

/-- A render object. Mirrors the Go struct `RenderObject` (`vao`, `texture`,
`freeVert`, `maxVert`); the VAO's GPU-resident state is inlined as the two
flat float buffers (2 floats per vertex), the per-object transform, and the
bound texture's pixel-to-UV conversion function. -/
structure RenderObject where
  vertBuf : List ℚ
  texBuf : List ℚ
  pixToTex : List ℚ → List ℚ
  translation : ℚ × ℚ
  rotation : ℚ × ℚ × ℚ
  freeVert : Int
  maxVert : Int

/-- Go `SetWindowSize` from the source: stores its two arguments verbatim in the
package globals `windowWidth`, `windowHeight` (no validation). The returned
pair is the new global viewport state. -/
def SetWindowSize (width height : ℚ) : ℚ × ℚ := (width, height)

/-- The initial values of the viewport globals (`var windowWidth float32 = 800`,
`var windowHeight float32 = 600`). -/
def initialWindowSize : ℚ × ℚ := (800, 600)

/-- The loop body of `PixToScreen`: walks the coordinate list carrying the
`even` flag, which the Go loop flips at the top of each iteration; the
just-flipped flag selects the width or height normalization. -/
def pixToScreenAux (halfWidth halfHeight : ℚ) : Bool → List ℚ → List ℚ
  | _, [] => []
  | even, coord :: rest =>
    let even' := !even
    (if even' then (coord - halfWidth) / halfWidth
     else (coord - halfHeight) / halfHeight) :: pixToScreenAux halfWidth halfHeight even' rest

/-- Go `PixToScreen` from the source: normalizes an alternating x,y pixel
coordinate stream about the screen centre, dividing by the half-extents of
the viewport. (The `fmt.Println` debug output has no effect on state and is
not modelled.) -/
def PixToScreen (windowWidth windowHeight : ℚ) (coords : List ℚ) : List ℚ :=
  pixToScreenAux (windowWidth / 2) (windowHeight / 2) false coords

/-- Overwrite the slice of `buf` starting at `start` with `xs`
(in-place buffer write). -/
def writeAt (buf : List ℚ) (start : Nat) (xs : List ℚ) : List ℚ :=
  buf.take start ++ xs ++ buf.drop (start + xs.length)

/-- Modelled from the spec: `vao.UpdateVertBufferIndex(index, verts)` — the
GPU Surface buffer-write primitive for the position buffer. `index` is a
vertex slot, each vertex holds 2 floats, so the flat write starts at
`2*index`. Touches only the position buffer. -/
def updateVertBufferIndex (o : RenderObject) (index : Int) (verts : List ℚ) : RenderObject :=
  { o with vertBuf := writeAt o.vertBuf (2 * index).toNat verts }

/-- Modelled from the spec: `vao.UpdateTexBufferIndex(index, texs)` — the
GPU Surface buffer-write primitive for the UV buffer. Touches only the UV
buffer. -/
def updateTexBufferIndex (o : RenderObject) (index : Int) (texs : List ℚ) : RenderObject :=
  { o with texBuf := writeAt o.texBuf (2 * index).toNat texs }

/-- Modelled from the spec: `vao.UpdateBufferIndex(index, verts, texs)` — the
GPU Surface primitive `WriteVertexRange(buffer, startIndex, positions, uvs)`,
writing both the positions and the UVs of the vertex range. -/
def updateBufferIndex (o : RenderObject) (index : Int) (verts texs : List ℚ) : RenderObject :=
  updateTexBufferIndex (updateVertBufferIndex o index verts) index texs

/-- Go `CreateRenderObject` from the source: allocates a VAO of `size` vertices
(buffers modelled as zero-filled, 2 floats per vertex), binds the texture's
pixel-to-UV conversion, and initialises `freeVert := 0`, `maxVert := size`. -/
def CreateRenderObject (size : Int) (pixToTex : List ℚ → List ℚ) : RenderObject :=
  { vertBuf := List.replicate (2 * size).toNat 0
    texBuf := List.replicate (2 * size).toNat 0
    pixToTex := pixToTex
    translation := (0, 0)
    rotation := (0, 0, 0)
    freeVert := 0
    maxVert := size }

/-- The 12-float position list that `AddSquare` builds (upper-right and
lower-left triangles; note the `y - width` bottom edge). -/
def addSquareVerts (x y width : ℚ) : List ℚ :=
  [x, y,
   x + width, y,
   x + width, y - width,

   x, y,
   x + width, y - width,
   x, y - width]

/-- The 12-float UV list built identically by `AddSquare` and
`ModifyTexSquare` (note the `yTex + widthTex` bottom edge). -/
def squareTexs (xTex yTex widthTex : ℚ) : List ℚ :=
  [xTex, yTex,
   xTex + widthTex, yTex,
   xTex + widthTex, yTex + widthTex,

   xTex, yTex,
   xTex + widthTex, yTex + widthTex,
   xTex, yTex + widthTex]

/-- The 12-float position list that `ModifyVertSquare` builds (note the
`y + width` bottom edge, unlike `addSquareVerts`). -/
def modifyVertSquareVerts (x y width : ℚ) : List ℚ :=
  [x, y,
   x + width, y,
   x + width, y + width,

   x, y,
   x + width, y + width,
   x, y + width]

/-- Go `(*RenderObject).AddSquare` from the source. Builds the vertex and UV
quads, converts them, panics (`Except.error` carrying the object state at
the moment of panic) when `freeVert + 6 > maxVert`, otherwise writes both
buffers at slot `freeVert`, advances `freeVert` by 6 and returns the
pre-advance offset (`freeVert - 6` after the advance). -/
def AddSquare (windowWidth windowHeight : ℚ) (o : RenderObject)
    (x y xTex yTex width widthTex : ℚ) : Except RenderObject (RenderObject × Int) :=
  let verts := PixToScreen windowWidth windowHeight (addSquareVerts x y width)
  let texs := o.pixToTex (squareTexs xTex yTex widthTex)
  if o.freeVert + 6 > o.maxVert then
    Except.error o
  else
    let o1 := updateBufferIndex o o.freeVert verts texs
    let o2 := { o1 with freeVert := o1.freeVert + 6 }
    Except.ok (o2, o2.freeVert - 6)

/-- Go `(*RenderObject).ModifyVertSquare` from the source: rebuilds the position
quad, converts it, and overwrites only the position buffer at slot `index`. -/
def ModifyVertSquare (windowWidth windowHeight : ℚ) (o : RenderObject)
    (index : Int) (x y width : ℚ) : RenderObject :=
  updateVertBufferIndex o index
    (PixToScreen windowWidth windowHeight (modifyVertSquareVerts x y width))

/-- Go `(*RenderObject).ModifyTexSquare` from the source: rebuilds the UV quad,
converts it through the texture, and overwrites only the UV buffer at slot
`index`. -/
def ModifyTexSquare (o : RenderObject) (index : Int) (xTex yTex widthTex : ℚ) : RenderObject :=
  updateTexBufferIndex o index (o.pixToTex (squareTexs xTex yTex widthTex))

/-- Go `(*RenderObject).ModifySquare` from the source: `ModifyVertSquare`
followed by `ModifyTexSquare`. -/
def ModifySquare (windowWidth windowHeight : ℚ) (o : RenderObject)
    (index : Int) (x y xTex yTex width widthTex : ℚ) : RenderObject :=
  ModifyTexSquare (ModifyVertSquare windowWidth windowHeight o index x y width)
    index xTex yTex widthTex

/-- Go `(*RenderObject).ClearSquare` from the source:
`obj.ModifyVertSquare(index, 0, 0, 0)`. -/
def ClearSquare (windowWidth windowHeight : ℚ) (o : RenderObject) (index : Int) : RenderObject :=
  ModifyVertSquare windowWidth windowHeight o index 0 0 0

/-- Go `(*RenderObject).RotateSquare` from the source: `vao.SetRotation(x, y, rad)`
(replaces the object's single rotation). -/
def RotateSquare (o : RenderObject) (x y rad : ℚ) : RenderObject :=
  { o with rotation := (x, y, rad) }

/-- Go `(*RenderObject).TranslateSquare` from the source:
`vao.SetTranslation(x, y)` (replaces the object's single translation). -/
def TranslateSquare (o : RenderObject) (x y : ℚ) : RenderObject :=
  { o with translation := (x, y) }

/-- The OpenGL `GL_TRIANGLES` primitive mode constant (0x0004). -/
def glTriangles : Nat := 4

/-- One draw call as issued by `gl.DrawArrays(mode, first, count)`. -/
structure DrawCall where
  mode : Nat
  first : Int
  count : Int

/-- Modelled from the spec: `vao.PrepRender()` returns the vertex count the
draw call covers; per the spec, `Render()` covers vertex 0 through
`freeVertexOffset`, so the count is `freeVert`. -/
def PrepRender (o : RenderObject) : Int := o.freeVert

/-- Go `(*RenderObject).Render` from the source: a single
`gl.DrawArrays(gl.TRIANGLES, 0, PrepRender())` call. -/
def RenderObjectDraw (o : RenderObject) : DrawCall :=
  { mode := glTriangles, first := 0, count := PrepRender o }

/-- The observable GPU output of one frame: the clear colour and the ordered
list of draw calls. -/
structure FrameOutput where
  clearColor : ℚ × ℚ × ℚ × ℚ
  draws : List DrawCall

/-- Package-level `Render` from the source: clears to black and visits the
registered render objects in registration order, each issuing its draw call. -/
def RenderFrame (renderObjects : List RenderObject) : FrameOutput :=
  { clearColor := (0, 0, 0, 1)
    draws := renderObjects.map RenderObjectDraw }

/-- Arguments of one `AddSquare` call. -/
structure SquareArgs where
  x : ℚ
  y : ℚ
  xTex : ℚ
  yTex : ℚ
  width : ℚ
  widthTex : ℚ

/-- Run a sequence of `AddSquare` calls, collecting the returned first-vertex
indices; stops at the first panic, propagating the panic state. -/
def addSquareRun (windowWidth windowHeight : ℚ) (o : RenderObject) :
    List SquareArgs → Except RenderObject (RenderObject × List Int)
  | [] => Except.ok (o, [])
  | a :: rest =>
    match AddSquare windowWidth windowHeight o a.x a.y a.xTex a.yTex a.width a.widthTex with
    | Except.error s => Except.error s
    | Except.ok (o', i) =>
      match addSquareRun windowWidth windowHeight o' rest with
      | Except.error s => Except.error s
      | Except.ok (o'', rs) => Except.ok (o'', i :: rs)

/-- One operation of the render-object public interface. -/
inductive RenderOp
  | addSquare (x y xTex yTex width widthTex : ℚ)
  | modifyVertSquare (index : Int) (x y width : ℚ)
  | modifyTexSquare (index : Int) (xTex yTex widthTex : ℚ)
  | modifySquare (index : Int) (x y xTex yTex width widthTex : ℚ)
  | clearSquare (index : Int)
  | setTranslation (x y : ℚ)
  | setRotation (x y rad : ℚ)
  | render

/-- Execute one public-interface operation on a render object. `Except.error`
is the fatal `AddSquare` overflow panic, carrying the state at panic. -/
def stepOp (windowWidth windowHeight : ℚ) (o : RenderObject) :
    RenderOp → Except RenderObject RenderObject
  | .addSquare x y xTex yTex width widthTex =>
    match AddSquare windowWidth windowHeight o x y xTex yTex width widthTex with
    | Except.error s => Except.error s
    | Except.ok (o', _) => Except.ok o'
  | .modifyVertSquare index x y width =>
    Except.ok (ModifyVertSquare windowWidth windowHeight o index x y width)
  | .modifyTexSquare index xTex yTex widthTex =>
    Except.ok (ModifyTexSquare o index xTex yTex widthTex)
  | .modifySquare index x y xTex yTex width widthTex =>
    Except.ok (ModifySquare windowWidth windowHeight o index x y xTex yTex width widthTex)
  | .clearSquare index => Except.ok (ClearSquare windowWidth windowHeight o index)
  | .setTranslation x y => Except.ok (TranslateSquare o x y)
  | .setRotation x y rad => Except.ok (RotateSquare o x y rad)
  | .render => Except.ok o

/-- Execute a sequence of public-interface operations. -/
def runOps (windowWidth windowHeight : ℚ) (o : RenderObject) :
    List RenderOp → Except RenderObject RenderObject
  | [] => Except.ok o
  | op :: rest =>
    match stepOp windowWidth windowHeight o op with
    | Except.error s => Except.error s
    | Except.ok o' => runOps windowWidth windowHeight o' rest

/-!
## Helper lemmas
-/

lemma pixToScreenAux_length (hw hh : ℚ) (b : Bool) (coords : List ℚ) :
    (pixToScreenAux hw hh b coords).length = coords.length := by
  induction coords generalizing b with
  | nil => rfl
  | cons c rest ih => simp [pixToScreenAux, ih]

lemma pixToScreenAux_getElem? (hw hh : ℚ) (coords : List ℚ) (b : Bool) (i : Nat) :
    (pixToScreenAux hw hh b coords)[i]? =
      (coords[i]?).map (fun c =>
        if (if i % 2 = 0 then !b else b) = true then (c - hw) / hw else (c - hh) / hh) := by
  induction coords generalizing b i with
  | nil => simp [pixToScreenAux]
  | cons c rest ih =>
    cases i with
    | zero => simp [pixToScreenAux]
    | succ n =>
      have hmod : (n + 1) % 2 = if n % 2 = 0 then 1 else 0 := by
        rcases Nat.mod_two_eq_zero_or_one n with hn | hn <;> simp [hn] <;> omega
      simp only [pixToScreenAux, List.getElem?_cons_succ]
      rw [ih (!b) n, hmod]
      rcases Nat.mod_two_eq_zero_or_one n with hn | hn <;> simp [hn]

lemma pixToScreen_pair (w h a b : ℚ) :
    PixToScreen w h [a, b] = [(a - w / 2) / (w / 2), (b - h / 2) / (h / 2)] := by
  simp [PixToScreen, pixToScreenAux]


lemma AddSquare_ok (w h : ℚ) (o : RenderObject) (x y xTex yTex width widthTex : ℚ)
    (hroom : o.freeVert + 6 ≤ o.maxVert) :
    AddSquare w h o x y xTex yTex width widthTex =
      Except.ok
        ({ o with
            vertBuf := writeAt o.vertBuf (2 * o.freeVert).toNat
              (PixToScreen w h (addSquareVerts x y width))
            texBuf := writeAt o.texBuf (2 * o.freeVert).toNat
              (o.pixToTex (squareTexs xTex yTex widthTex))
            freeVert := o.freeVert + 6 }, o.freeVert) := by
  have hc : ¬(o.freeVert + 6 > o.maxVert) := by omega
  simp [AddSquare, updateBufferIndex, updateTexBufferIndex, updateVertBufferIndex, hc]

lemma AddSquare_error (w h : ℚ) (o : RenderObject) (x y xTex yTex width widthTex : ℚ)
    (hover : o.maxVert < o.freeVert + 6) :
    AddSquare w h o x y xTex yTex width widthTex = Except.error o := by
  simp [AddSquare, hover]

/-- C10: when `AddSquare` panics on overflow, the panic is atomic: the
overflow check precedes every buffer write and the offset update, so the
object state at the moment of the panic is exactly the pre-call state. -/
theorem C10_addSquare_panic_atomic (w h : ℚ) (o s : RenderObject)
    (x y xTex yTex width widthTex : ℚ)
    (herr : AddSquare w h o x y xTex yTex width widthTex = Except.error s) :
    s = o ∧ o.maxVert < o.freeVert + 6 := by
  by_cases hc : o.maxVert < o.freeVert + 6
  · rw [AddSquare_error w h o x y xTex yTex width widthTex hc] at herr
    simp only [Except.error.injEq] at herr
    exact ⟨herr.symm, hc⟩
  · rw [AddSquare_ok w h o x y xTex yTex width widthTex (by omega)] at herr
    simp at herr

theorem C10_witness :
    CreateRenderObject 0 id = CreateRenderObject 0 id ∧
      (CreateRenderObject 0 id).maxVert < (CreateRenderObject 0 id).freeVert + 6 :=
  C10_addSquare_panic_atomic 2 2 (CreateRenderObject 0 id) (CreateRenderObject 0 id)
    0 0 0 0 1 1
    (AddSquare_error 2 2 (CreateRenderObject 0 id) 0 0 0 0 1 1 (by norm_num [CreateRenderObject]))

/-- C5 (code bug): the claim says `ModifyVertSquare(i, x, y, width)` rewrites
exactly the 6 position vertices `AddSquare` originally wrote for the same
`x, y, width`. The code disagrees: `AddSquare` builds the second row of the
quad at `y - width` while `ModifyVertSquare` builds it at `y + width`, so for
any nonzero width the rewritten slot differs from the original (here at
`x = 0, y = 0, width = 1`, viewport 2×2). -/
theorem C5_addSquare_modifyVert_geometry_disagree :
    addSquareVerts 0 0 1 = [0, 0, 1, 0, 1, -1, 0, 0, 1, -1, 0, -1] ∧
    modifyVertSquareVerts 0 0 1 = [0, 0, 1, 0, 1, 1, 0, 0, 1, 1, 0, 1] ∧
    addSquareVerts 0 0 1 ≠ modifyVertSquareVerts 0 0 1 ∧
    PixToScreen 2 2 (addSquareVerts 0 0 1) ≠ PixToScreen 2 2 (modifyVertSquareVerts 0 0 1) := by
  have h1 : PixToScreen 2 2 (addSquareVerts 0 0 1) =
      [-1, -1, 0, -1, 0, -2, -1, -1, 0, -2, -1, -2] := by
    norm_num [PixToScreen, pixToScreenAux, addSquareVerts]
  have h2 : PixToScreen 2 2 (modifyVertSquareVerts 0 0 1) =
      [-1, -1, 0, -1, 0, 0, -1, -1, 0, 0, -1, 0] := by
    norm_num [PixToScreen, pixToScreenAux, modifyVertSquareVerts]
  refine ⟨by norm_num [addSquareVerts], by norm_num [modifyVertSquareVerts], ?_, ?_⟩
  · norm_num [addSquareVerts, modifyVertSquareVerts]
  · rw [h1, h2]
    norm_num

/-- C7: `ClearSquare(index)` is literally `ModifyVertSquare(index, 0, 0, 0)`:
the resulting object state (position buffer, UV buffer, `freeVert`,
`maxVert`) is identical, and the written quad is the degenerate all-zero
square (every vertex at the pixel origin). -/
theorem C7_clearSquare_eq_modifyVertSquare_zero (w h : ℚ) (o : RenderObject) (index : Int) :
    ClearSquare w h o index = ModifyVertSquare w h o index 0 0 0 ∧
    (ClearSquare w h o index).texBuf = o.texBuf ∧
    (ClearSquare w h o index).freeVert = o.freeVert ∧
    (ClearSquare w h o index).maxVert = o.maxVert ∧
    modifyVertSquareVerts 0 0 0 = List.replicate 12 0 :=
  ⟨rfl, rfl, rfl, rfl, by
    simp only [modifyVertSquareVerts, List.replicate_succ, List.replicate_zero]
    norm_num⟩

/-- C8: `ModifyVertSquare` then `ModifyTexSquare` on the same index, in
either order, leaves the object in the same state as the single
`ModifySquare` call with the same arguments (the two writes touch the
disjoint position and UV buffers). -/
theorem C8_modify_composition_commutes (w h : ℚ) (o : RenderObject) (index : Int)
    (x y xTex yTex width widthTex : ℚ) :
    ModifyTexSquare (ModifyVertSquare w h o index x y width) index xTex yTex widthTex =
      ModifySquare w h o index x y xTex yTex width widthTex ∧
    ModifyVertSquare w h (ModifyTexSquare o index xTex yTex widthTex) index x y width =
      ModifySquare w h o index x y xTex yTex width widthTex :=
  ⟨rfl, rfl⟩

/-- C9 counterexample: zero viewport dimensions are not guarded anywhere.
`SetWindowSize(0, 600)` stores the zero width verbatim (no rejection, no
validation), producing a state reachable through the public interface in
which `PixToScreen`'s divisor `w / 2` is zero, so the conversion divides by
zero (in this exact-rational model `q / 0 = 0`, collapsing every x output). -/
theorem C9_counterexample :
    SetWindowSize 0 600 = (0, 600) ∧
    (SetWindowSize 0 600).1 / 2 = 0 ∧
    PixToScreen (SetWindowSize 0 600).1 (SetWindowSize 0 600).2 [100, 100] =
      [0, (100 - 300) / 300] := by
  refine ⟨rfl, by norm_num [SetWindowSize], ?_⟩
  rw [show SetWindowSize 0 600 = ((0 : ℚ), (600 : ℚ)) from rfl, pixToScreen_pair]
  norm_num

/-- C9 amended: `SetWindowSize` performs no validation at all — it stores any
pair verbatim, zero included — and with a zero stored width the divisor
`w / 2` used by `PixToScreen` is zero, so division by zero in coordinate
conversion is not guarded against. -/
theorem C9_setWindowSize_no_validation (width height : ℚ) :
    SetWindowSize width height = (width, height) ∧
    (SetWindowSize 0 height).1 / 2 = 0 :=
  ⟨rfl, by norm_num [SetWindowSize]⟩

/-- C6: one frame issues exactly one draw call per registered render object,
in registration order, each drawing triangles over the vertex range
`[0, freeVert)` of that object — never `maxVert`. -/
theorem C6_renderFrame_one_draw_per_object (renderObjects : List RenderObject) (i : Nat) :
    (RenderFrame renderObjects).draws.length = renderObjects.length ∧
    (RenderFrame renderObjects).draws[i]? =
      (renderObjects[i]?).map (fun o => (⟨glTriangles, 0, o.freeVert⟩ : DrawCall)) := by
  constructor
  · simp [RenderFrame]
  · simp only [RenderFrame, List.getElem?_map]
    cases renderObjects[i]? <;> simp [RenderObjectDraw, PrepRender]

/-- C2: `PixToScreen` preserves length and maps the value at every even
position through `(x - w/2) / (w/2)` and at every odd position through
`(y - h/2) / (h/2)`; consequently it sends `(w/2, h/2)` to `(0,0)`,
`(0,0)` to `(-1,-1)` and `(w,h)` to `(1,1)`, with no y-axis flip. -/
theorem C2_pixToScreen_normalization (coords : List ℚ) (w h : ℚ)
    (hw : 0 < w) (hh : 0 < h) :
    (PixToScreen w h coords).length = coords.length ∧
    (∀ i : Nat, (PixToScreen w h coords)[i]? =
        (coords[i]?).map (fun c =>
          if i % 2 = 0 then (c - w / 2) / (w / 2) else (c - h / 2) / (h / 2))) ∧
    PixToScreen w h [w / 2, h / 2] = [0, 0] ∧
    PixToScreen w h [0, 0] = [-1, -1] ∧
    PixToScreen w h [w, h] = [1, 1] := by
  have hw2 : (w / 2) ≠ 0 := by positivity
  have hh2 : (h / 2) ≠ 0 := by positivity
  refine ⟨pixToScreenAux_length _ _ _ _, ?_, ?_, ?_, ?_⟩
  · intro i
    rw [PixToScreen, pixToScreenAux_getElem?]
    rcases Nat.mod_two_eq_zero_or_one i with hi | hi <;> simp [hi]
  · rw [pixToScreen_pair, sub_self, zero_div, sub_self, zero_div]
  · rw [pixToScreen_pair, zero_sub, neg_div, div_self hw2, zero_sub, neg_div, div_self hh2]
  · rw [pixToScreen_pair, show w - w / 2 = w / 2 by ring, div_self hw2,
      show h - h / 2 = h / 2 by ring, div_self hh2]

theorem C2_witness :
    (0 : ℚ) < 800 ∧ (0 : ℚ) < 600 ∧
    PixToScreen 800 600 [800 / 2, 600 / 2] = [0, 0] ∧
    PixToScreen 800 600 [0, 0] = [-1, -1] ∧
    PixToScreen 800 600 [800, 600] = [1, 1] := by
  have hmain := C2_pixToScreen_normalization [] 800 600 (by norm_num) (by norm_num)
  exact ⟨by norm_num, by norm_num, hmain.2.2.1, hmain.2.2.2.1, hmain.2.2.2.2⟩

lemma addSquareRun_ok (w h : ℚ) (args : List SquareArgs) (o : RenderObject)
    (hcap : o.freeVert + 6 * (args.length : Int) ≤ o.maxVert) :
    ∃ o', addSquareRun w h o args =
        Except.ok (o', (List.range args.length).map (fun k : Nat => o.freeVert + 6 * (k : Int))) ∧
      o'.freeVert = o.freeVert + 6 * (args.length : Int) ∧ o'.maxVert = o.maxVert := by
  induction args generalizing o with
  | nil => exact ⟨o, rfl, by simp, rfl⟩
  | cons a rest ih =>
    have hroom : o.freeVert + 6 ≤ o.maxVert := by
      simp only [List.length_cons] at hcap
      push_cast at hcap
      omega
    have hcap' : (o.freeVert + 6) + 6 * (rest.length : Int) ≤ o.maxVert := by
      simp only [List.length_cons] at hcap
      push_cast at hcap
      omega
    obtain ⟨o', hrun, hfv, hmv⟩ := ih
      { o with
          vertBuf := writeAt o.vertBuf (2 * o.freeVert).toNat
            (PixToScreen w h (addSquareVerts a.x a.y a.width))
          texBuf := writeAt o.texBuf (2 * o.freeVert).toNat
            (o.pixToTex (squareTexs a.xTex a.yTex a.widthTex))
          freeVert := o.freeVert + 6 } hcap'
    have hrun' : addSquareRun w h
        { o with
            vertBuf := writeAt o.vertBuf (2 * o.freeVert).toNat
              (PixToScreen w h (addSquareVerts a.x a.y a.width))
            texBuf := writeAt o.texBuf (2 * o.freeVert).toNat
              (o.pixToTex (squareTexs a.xTex a.yTex a.widthTex))
            freeVert := o.freeVert + 6 } rest =
        Except.ok (o', (List.range rest.length).map
          (fun k : Nat => (o.freeVert + 6) + 6 * (k : Int))) := hrun
    have hfv' : o'.freeVert = (o.freeVert + 6) + 6 * (rest.length : Int) := hfv
    have hmv' : o'.maxVert = o.maxVert := hmv
    have hlist : (List.range (a :: rest).length).map (fun k : Nat => o.freeVert + 6 * (k : Int)) =
        o.freeVert ::
          (List.range rest.length).map (fun k : Nat => (o.freeVert + 6) + 6 * (k : Int)) := by
      rw [List.length_cons, List.range_succ_eq_map, List.map_cons, List.map_map]
      have hfun : ((fun k : ℕ => o.freeVert + 6 * (k : Int)) ∘ Nat.succ) =
          fun k : ℕ => (o.freeVert + 6) + 6 * (k : Int) := by
        funext k
        simp only [Function.comp_apply]
        push_cast
        ring
      rw [hfun]
      norm_num
    refine ⟨o', ?_, by rw [hfv', List.length_cons]; push_cast; ring, hmv'⟩
    rw [hlist]
    simp only [addSquareRun, AddSquare_ok w h o a.x a.y a.xTex a.yTex a.width a.widthTex hroom,
      hrun']

/-- C3: a successful `AddSquare` writes its 6 vertices (12 floats) starting
at the current `freeVert` slot, advances `freeVert` by exactly 6, and
returns the pre-advance offset; on a freshly created object a run of
`AddSquare` calls therefore returns the indices 0, 6, 12, ... in order. -/
theorem C3_addSquare_allocates_in_order (w h : ℚ) (o : RenderObject)
    (x y xTex yTex width widthTex : ℚ) (f : List ℚ → List ℚ)
    (args : List SquareArgs) (size : Int)
    (hroom : o.freeVert + 6 ≤ o.maxVert)
    (hcap : 6 * (args.length : Int) ≤ size) :
    AddSquare w h o x y xTex yTex width widthTex =
      Except.ok
        ({ o with
            vertBuf := writeAt o.vertBuf (2 * o.freeVert).toNat
              (PixToScreen w h (addSquareVerts x y width))
            texBuf := writeAt o.texBuf (2 * o.freeVert).toNat
              (o.pixToTex (squareTexs xTex yTex widthTex))
            freeVert := o.freeVert + 6 }, o.freeVert) ∧
    ∃ o', addSquareRun w h (CreateRenderObject size f) args =
        Except.ok (o', (List.range args.length).map (fun k : Nat => 6 * (k : Int))) := by
  refine ⟨AddSquare_ok w h o x y xTex yTex width widthTex hroom, ?_⟩
  have hcap' : (CreateRenderObject size f).freeVert + 6 * (args.length : Int) ≤
      (CreateRenderObject size f).maxVert := by
    simpa [CreateRenderObject] using hcap
  obtain ⟨o', hrun, -, -⟩ := addSquareRun_ok w h args (CreateRenderObject size f) hcap'
  have hrun' : addSquareRun w h (CreateRenderObject size f) args =
      Except.ok (o', (List.range args.length).map (fun k : Nat => 0 + 6 * (k : Int))) := hrun
  refine ⟨o', ?_⟩
  rw [hrun']
  norm_num

theorem C3_witness :
    (CreateRenderObject 12 id).freeVert + 6 ≤ (CreateRenderObject 12 id).maxVert ∧
    6 * (([⟨0, 0, 0, 0, 1, 1⟩, ⟨0, 0, 0, 0, 1, 1⟩] : List SquareArgs).length : Int) ≤ 12 ∧
    (AddSquare 2 2 (CreateRenderObject 12 id) 0 0 0 0 1 1 =
      Except.ok
        ({ CreateRenderObject 12 id with
            vertBuf := writeAt (CreateRenderObject 12 id).vertBuf
              (2 * (CreateRenderObject 12 id).freeVert).toNat
              (PixToScreen 2 2 (addSquareVerts 0 0 1))
            texBuf := writeAt (CreateRenderObject 12 id).texBuf
              (2 * (CreateRenderObject 12 id).freeVert).toNat
              ((CreateRenderObject 12 id).pixToTex (squareTexs 0 0 1))
            freeVert := (CreateRenderObject 12 id).freeVert + 6 },
          (CreateRenderObject 12 id).freeVert) ∧
      ∃ o', addSquareRun 2 2 (CreateRenderObject 12 id)
          [⟨0, 0, 0, 0, 1, 1⟩, ⟨0, 0, 0, 0, 1, 1⟩] =
        Except.ok (o',
          (List.range ([⟨0, 0, 0, 0, 1, 1⟩, ⟨0, 0, 0, 0, 1, 1⟩] : List SquareArgs).length).map
            (fun k : Nat => 6 * (k : Int)))) :=
  ⟨by norm_num [CreateRenderObject], by norm_num,
    C3_addSquare_allocates_in_order 2 2 (CreateRenderObject 12 id) 0 0 0 0 1 1 id
      [⟨0, 0, 0, 0, 1, 1⟩, ⟨0, 0, 0, 0, 1, 1⟩] 12
      (by norm_num [CreateRenderObject]) (by norm_num)⟩

/-- C1: an `AddSquare` call panics exactly when `freeVert + 6 > maxVert` at
the time of the call; hence on a fresh object of capacity `6 * N`, `N`
successive `AddSquare` calls all succeed and the `(N+1)`-th call panics. -/
theorem C1_addSquare_overflow_iff (w h : ℚ) (f : List ℚ → List ℚ) (N : Nat)
    (args : List SquareArgs) (a : SquareArgs) (hlen : args.length = N) :
    (∀ (o : RenderObject) (x y xTex yTex width widthTex : ℚ),
        (∃ s, AddSquare w h o x y xTex yTex width widthTex = Except.error s) ↔
          o.maxVert < o.freeVert + 6) ∧
    (∃ o' rs, addSquareRun w h (CreateRenderObject (6 * (N : Int)) f) args =
        Except.ok (o', rs) ∧
      ∃ s, AddSquare w h o' a.x a.y a.xTex a.yTex a.width a.widthTex = Except.error s) := by
  constructor
  · intro o x y xTex yTex width widthTex
    constructor
    · rintro ⟨s, hs⟩
      by_contra hc
      rw [AddSquare_ok w h o x y xTex yTex width widthTex (by omega)] at hs
      simp at hs
    · intro hc
      exact ⟨o, AddSquare_error w h o x y xTex yTex width widthTex hc⟩
  · have hcap : (CreateRenderObject (6 * (N : Int)) f).freeVert + 6 * (args.length : Int) ≤
        (CreateRenderObject (6 * (N : Int)) f).maxVert := by
      simp [CreateRenderObject, hlen]
    obtain ⟨o', hrun, hfv, hmv⟩ :=
      addSquareRun_ok w h args (CreateRenderObject (6 * (N : Int)) f) hcap
    have hfv' : o'.freeVert = 0 + 6 * (args.length : Int) := hfv
    have hmv' : o'.maxVert = 6 * (N : Int) := hmv
    refine ⟨o', _, hrun, o',
      AddSquare_error w h o' a.x a.y a.xTex a.yTex a.width a.widthTex ?_⟩
    rw [hfv', hmv', hlen]
    omega

theorem C1_witness :
    ([⟨0, 0, 0, 0, 1, 1⟩] : List SquareArgs).length = 1 ∧
    ((∀ (o : RenderObject) (x y xTex yTex width widthTex : ℚ),
        (∃ s, AddSquare 2 2 o x y xTex yTex width widthTex = Except.error s) ↔
          o.maxVert < o.freeVert + 6) ∧
    (∃ o' rs, addSquareRun 2 2 (CreateRenderObject (6 * ((1 : Nat) : Int)) id)
        [⟨0, 0, 0, 0, 1, 1⟩] = Except.ok (o', rs) ∧
      ∃ s, AddSquare 2 2 o' (⟨0, 0, 0, 0, 1, 1⟩ : SquareArgs).x
          (⟨0, 0, 0, 0, 1, 1⟩ : SquareArgs).y (⟨0, 0, 0, 0, 1, 1⟩ : SquareArgs).xTex
          (⟨0, 0, 0, 0, 1, 1⟩ : SquareArgs).yTex (⟨0, 0, 0, 0, 1, 1⟩ : SquareArgs).width
          (⟨0, 0, 0, 0, 1, 1⟩ : SquareArgs).widthTex = Except.error s)) :=
  ⟨rfl, C1_addSquare_overflow_iff 2 2 id 1 [⟨0, 0, 0, 0, 1, 1⟩] ⟨0, 0, 0, 0, 1, 1⟩ rfl⟩

lemma stepOp_ok_cases (w h : ℚ) (o o' : RenderObject) (op : RenderOp)
    (hstep : stepOp w h o op = Except.ok o') :
    o'.maxVert = o.maxVert ∧
      (o'.freeVert = o.freeVert ∨
        (o.freeVert + 6 ≤ o.maxVert ∧ o'.freeVert = o.freeVert + 6)) := by
  cases op with
  | addSquare x y xTex yTex width widthTex =>
    by_cases hc : o.maxVert < o.freeVert + 6
    · rw [show stepOp w h o (.addSquare x y xTex yTex width widthTex) =
          (match AddSquare w h o x y xTex yTex width widthTex with
           | Except.error s => Except.error s
           | Except.ok (o', _) => Except.ok o') from rfl,
        AddSquare_error w h o x y xTex yTex width widthTex hc] at hstep
      exact absurd hstep (by simp)
    · rw [show stepOp w h o (.addSquare x y xTex yTex width widthTex) =
          (match AddSquare w h o x y xTex yTex width widthTex with
           | Except.error s => Except.error s
           | Except.ok (o', _) => Except.ok o') from rfl,
        AddSquare_ok w h o x y xTex yTex width widthTex (by omega)] at hstep
      simp only [Except.ok.injEq] at hstep
      subst hstep
      exact ⟨rfl, Or.inr ⟨by omega, rfl⟩⟩
  | modifyVertSquare index x y width =>
    simp only [stepOp, Except.ok.injEq] at hstep
    subst hstep
    exact ⟨rfl, Or.inl rfl⟩
  | modifyTexSquare index xTex yTex widthTex =>
    simp only [stepOp, Except.ok.injEq] at hstep
    subst hstep
    exact ⟨rfl, Or.inl rfl⟩
  | modifySquare index x y xTex yTex width widthTex =>
    simp only [stepOp, Except.ok.injEq] at hstep
    subst hstep
    exact ⟨rfl, Or.inl rfl⟩
  | clearSquare index =>
    simp only [stepOp, Except.ok.injEq] at hstep
    subst hstep
    exact ⟨rfl, Or.inl rfl⟩
  | setTranslation x y =>
    simp only [stepOp, Except.ok.injEq] at hstep
    subst hstep
    exact ⟨rfl, Or.inl rfl⟩
  | setRotation x y rad =>
    simp only [stepOp, Except.ok.injEq] at hstep
    subst hstep
    exact ⟨rfl, Or.inl rfl⟩
  | render =>
    simp only [stepOp, Except.ok.injEq] at hstep
    subst hstep
    exact ⟨rfl, Or.inl rfl⟩

lemma runOps_ok_inv (w h : ℚ) (ops : List RenderOp) (o o' : RenderObject)
    (hrun : runOps w h o ops = Except.ok o') :
    o.freeVert ≤ o'.freeVert ∧ o'.maxVert = o.maxVert ∧
      (o.freeVert ≤ o.maxVert → o'.freeVert ≤ o'.maxVert) ∧
      (0 ≤ o.freeVert → 0 ≤ o'.freeVert) := by
  induction ops generalizing o with
  | nil =>
    simp only [runOps, Except.ok.injEq] at hrun
    subst hrun
    exact ⟨le_refl _, rfl, fun hinv => hinv, fun h0 => h0⟩
  | cons op rest ih =>
    cases hstep : stepOp w h o op with
    | error s =>
      simp only [runOps, hstep] at hrun
      exact Except.noConfusion hrun
    | ok o1 =>
      simp only [runOps, hstep] at hrun
      obtain ⟨hmv, hcase⟩ := stepOp_ok_cases w h o o1 op hstep
      obtain ⟨ih1, ih2, ih3, ih4⟩ := ih o1 hrun
      rcases hcase with hfe | ⟨hroomv, hfe⟩
      · exact ⟨by omega, by omega, fun hinv => ih3 (by omega), fun h0 => ih4 (by omega)⟩
      · exact ⟨by omega, by omega, fun hinv => ih3 (by omega), fun h0 => ih4 (by omega)⟩

lemma runOps_append (w h : ℚ) (l1 l2 : List RenderOp) (o o1 : RenderObject)
    (h1 : runOps w h o l1 = Except.ok o1) :
    runOps w h o (l1 ++ l2) = runOps w h o1 l2 := by
  induction l1 generalizing o with
  | nil =>
    simp only [runOps, Except.ok.injEq] at h1
    subst h1
    rfl
  | cons op rest ih =>
    cases hstep : stepOp w h o op with
    | error s =>
      simp only [runOps, hstep] at h1
      exact Except.noConfusion h1
    | ok o2 =>
      simp only [List.cons_append, runOps, hstep] at h1 ⊢
      exact ih o2 h1

/-- C4: starting from a freshly created object of capacity `size`, any
panic-free run of public-interface operations keeps
`0 ≤ freeVert ≤ maxVert`, `freeVert` starts at 0 and never decreases, and
`maxVert` stays equal to the creation capacity. (Since every reachable
intermediate state is the final state of a prefix run, stating this for
every prefix `ops` of `ops ++ extra` covers the state after every
operation.) -/
theorem C4_freeVert_invariant (w h : ℚ) (size : Int) (f : List ℚ → List ℚ)
    (ops extra : List RenderOp) (o' o'' : RenderObject)
    (hsize : 0 ≤ size)
    (h1 : runOps w h (CreateRenderObject size f) ops = Except.ok o')
    (h2 : runOps w h (CreateRenderObject size f) (ops ++ extra) = Except.ok o'') :
    (CreateRenderObject size f).freeVert = 0 ∧
    0 ≤ o'.freeVert ∧ o'.freeVert ≤ o'.maxVert ∧ o'.maxVert = size ∧
    o'.freeVert ≤ o''.freeVert := by
  obtain ⟨m1, me, minv, mnn⟩ := runOps_ok_inv w h ops (CreateRenderObject size f) o' h1
  rw [runOps_append w h ops extra (CreateRenderObject size f) o' h1] at h2
  obtain ⟨m1', -, -, -⟩ := runOps_ok_inv w h extra o' o'' h2
  have hfv0 : (CreateRenderObject size f).freeVert = 0 := rfl
  have hmv0 : (CreateRenderObject size f).maxVert = size := rfl
  exact ⟨rfl, mnn (by omega), minv (by omega), by omega, m1'⟩

theorem C4_witness :
    (0 : Int) ≤ 6 ∧
    runOps 2 2 (CreateRenderObject 6 id) [RenderOp.render] =
      Except.ok (CreateRenderObject 6 id) ∧
    runOps 2 2 (CreateRenderObject 6 id) ([RenderOp.render] ++ [RenderOp.render]) =
      Except.ok (CreateRenderObject 6 id) ∧
    ((CreateRenderObject 6 id).freeVert = 0 ∧
      0 ≤ (CreateRenderObject 6 id).freeVert ∧
      (CreateRenderObject 6 id).freeVert ≤ (CreateRenderObject 6 id).maxVert ∧
      (CreateRenderObject 6 id).maxVert = 6 ∧
      (CreateRenderObject 6 id).freeVert ≤ (CreateRenderObject 6 id).freeVert) :=
  ⟨by norm_num, rfl, rfl,
    C4_freeVert_invariant 2 2 6 id [RenderOp.render] [RenderOp.render]
      (CreateRenderObject 6 id) (CreateRenderObject 6 id) (by norm_num) rfl rfl⟩
